import Mathlib

/-!
Verification of the Bitso liquidity-bot dashboard core (`src/bitso_dashboard.py`).

The script is a straight top-to-bottom batch computation over a trade log.
We embed the computational core shallowly:

* pandas cell values that may be NaN/NaT/missing are `Option` values;
* `pd.to_numeric(..., errors=coerce)` results are `Option Rat` (`none` = NaN);
* `pd.to_datetime` with its default raising behaviour makes normalisation an
  `Except`: a non-null unparsable timestamp aborts the whole run;
* `data.dropna()` is a `filterMap` keeping rows with all five fields non-null;
* numpy float division by zero and `min` over possibly-infinite values are
  modelled by an extended-rational type `ExtRat` with IEEE-754 semantics
  (`x / 0 = inf` for `x > 0`, `0 / 0 = NaN`, comparisons with NaN false);
* the rolling standard deviation (line 72) is carried on the squared scale:
  `rolling(window=10).std()` is `sqrt` of the rolling sample variance, and
  since `sqrt` is monotone on nonnegatives, the comparison
  `latest_vol > 0.04` (line 78) is exactly `variance > 0.04 ^ 2` whenever the
  reading is defined; the 0.0 fallback coincides on both scales.
-/

/-- Result of parsing the `timestamp` cell: the raw cell can be missing
(NaT after `read_csv`, dropped by `dropna`), a non-null string that
`pd.to_datetime` cannot parse (which raises, line 17), or a parsed instant
(modelled as an integer epoch value). -/
inductive TsField where
  | missing : TsField
  | unparsable : String → TsField
  | parsed : Int → TsField
deriving DecidableEq, Repr

/-- A raw input row as it stands after `read_csv`: `side` and `order_id` are
`none` when the cell is empty (NaN), `price`/`amount` are the result of
`pd.to_numeric(..., errors=coerce)` (lines 18-19), `none` meaning NaN. -/
structure RawRow where
  timestamp : TsField
  side : Option String
  price : Option Rat
  amount : Option Rat
  order_id : Option String
deriving DecidableEq, Repr

/-- A retained trade record: all five fields present (post `dropna`, line 20). -/
structure Trade where
  timestamp : Int
  side : String
  price : Rat
  amount : Rat
  order_id : String
deriving DecidableEq, Repr

/-- `True` exactly when the timestamp cell is a non-null string that
`pd.to_datetime` cannot parse, which makes line 17 raise. -/
def tsRaises : TsField → Bool
  | TsField.unparsable _ => true
  | _ => false

/-- One row of `data.dropna()` (line 20): the row survives iff all five
columns are non-null, in which case the typed record is produced. -/
def rowToTrade (r : RawRow) : Option Trade :=
  match r.timestamp, r.side, r.price, r.amount, r.order_id with
  | TsField.parsed t, some s, some p, some a, some o =>
      some { timestamp := t, side := s, price := p, amount := a, order_id := o }
  | _, _, _, _, _ => none

/-- Lines 16-20 of the script: `to_datetime` (raising on a non-null
unparsable timestamp), `to_numeric(errors=coerce)` (already reflected in
`RawRow`), then `dropna`. -/
def normalizeLog (rows : List RawRow) : Except String (List Trade) :=
  if rows.any fun r => tsRaises r.timestamp then
    Except.error "ValueError: unparsable timestamp"
  else
    Except.ok (rows.filterMap rowToTrade)

/-- Line 35: `sell_mxn = data[data.side == sell].amount.sum()`. -/
def sell_mxn (log : List Trade) : Rat :=
  ((log.filter fun t => t.side == "sell").map fun t => t.amount).sum

/-- Line 36: `buy_usd = (data[data.side == buy].amount * data[data.side == buy].price).sum()`. -/
def buy_usd (log : List Trade) : Rat :=
  ((log.filter fun t => t.side == "buy").map fun t => t.amount * t.price).sum

/-- The spec wording of the Exposure Aggregator, for refinement:
"`sell_total` = sum of `amount` where side = SELL" (§4.2). -/
def sell_total_spec (log : List Trade) : Rat :=
  (log.filter fun t => t.side == "sell").foldr (fun t acc => t.amount + acc) 0

/-- The spec wording: "`buy_notional` = sum of `amount × price` where
side = BUY" (§4.2). -/
def buy_notional_spec (log : List Trade) : Rat :=
  (log.filter fun t => t.side == "buy").foldr (fun t acc => t.amount * t.price + acc) 0

theorem sell_total_spec_eq (log : List Trade) : sell_mxn log = sell_total_spec log := by
  unfold sell_mxn sell_total_spec
  induction log with
  | nil => rfl
  | cons t ts ih =>
      by_cases h : t.side = "sell" <;>
        simp [List.filter_cons, h, ih, List.sum_cons]

theorem buy_notional_spec_eq (log : List Trade) : buy_usd log = buy_notional_spec log := by
  unfold buy_usd buy_notional_spec
  induction log with
  | nil => rfl
  | cons t ts ih =>
      by_cases h : t.side = "buy" <;>
        simp [List.filter_cons, h, ih, List.sum_cons]

/-- Extended rationals covering the IEEE-754 double values the script can
produce at lines 40-41: finite values, the infinities numpy emits on
division by zero, and NaN. Only finite operands are ever divided in the
script (sums and widget inputs), so `ediv` models the remaining cases as
NaN without loss. -/
inductive ExtRat where
  | nan : ExtRat
  | inf : ExtRat
  | neginf : ExtRat
  | fin : Rat → ExtRat
deriving DecidableEq, Repr

/-- The Python `<` on these values: every comparison with NaN is false. -/
def elt : ExtRat → ExtRat → Bool
  | ExtRat.nan, _ => false
  | _, ExtRat.nan => false
  | ExtRat.fin a, ExtRat.fin b => decide (a < b)
  | ExtRat.neginf, ExtRat.neginf => false
  | ExtRat.neginf, _ => true
  | ExtRat.inf, _ => false
  | ExtRat.fin _, ExtRat.inf => true
  | ExtRat.fin _, ExtRat.neginf => false

/-- numpy float64 division as exercised by lines 40-41: a positive finite
value over zero is `inf`, a negative one `-inf`, zero over zero NaN;
otherwise exact division. -/
def ediv : ExtRat → ExtRat → ExtRat
  | ExtRat.fin a, ExtRat.fin b =>
      if b = 0 then
        if 0 < a then ExtRat.inf
        else if a < 0 then ExtRat.neginf
        else ExtRat.nan
      else ExtRat.fin (a / b)
  | _, _ => ExtRat.nan

/-- Python builtin `min` of two values: returns the second iff it compares
strictly below the first (so `min(nan, y) = nan` and `min(inf, y) = y`). -/
def pymin (x y : ExtRat) : ExtRat := if elt y x then y else x

/-- Line 40: `sell_progress = min(sell_mxn / target_sell_mxn, 1.0)`. -/
def sell_progress (sell_mxn_v target_sell_mxn : ExtRat) : ExtRat :=
  pymin (ediv sell_mxn_v target_sell_mxn) (ExtRat.fin 1)

/-- Line 41: `buy_progress = min(buy_usd / target_sell_usd, 1.0)`. -/
def buy_progress (buy_usd_v target_sell_usd : ExtRat) : ExtRat :=
  pymin (ediv buy_usd_v target_sell_usd) (ExtRat.fin 1)

/-- Line 87: `buy_avg = data[data.side == buy].price.mean()`; the pandas
mean of an empty selection is NaN, modelled as `none`. -/
def buy_avg (log : List Trade) : Option Rat :=
  let ps := (log.filter fun t => t.side == "buy").map fun t => t.price
  if ps.isEmpty then none else some (ps.sum / ps.length)

/-- Line 88: `sell_avg = data[data.side == sell].price.mean()`. -/
def sell_avg (log : List Trade) : Option Rat :=
  let ps := (log.filter fun t => t.side == "sell").map fun t => t.price
  if ps.isEmpty then none else some (ps.sum / ps.length)

/-- Line 89: `sell_qty = data[data.side == sell].amount.sum()`. -/
def sell_qty (log : List Trade) : Rat :=
  ((log.filter fun t => t.side == "sell").map fun t => t.amount).sum

/-- Line 92: `sell_price_deviation = sell_avg - cost_basis if not
isnan(sell_avg) else 0.0`. -/
def sell_price_deviation (log : List Trade) (cost_basis : Rat) : Rat :=
  match sell_avg log with
  | some m => m - cost_basis
  | none => 0

/-- Line 94: `buy_price_deviation = cost_basis - buy_avg if not
isnan(buy_avg) else 0.0`. -/
def buy_price_deviation (log : List Trade) (cost_basis : Rat) : Rat :=
  match buy_avg log with
  | some m => cost_basis - m
  | none => 0

/-- Line 98: `cost_basis_pnl = (sell_avg - cost_basis) * sell_qty if not
isnan(sell_avg) else 0.0`. -/
def cost_basis_pnl (log : List Trade) (cost_basis : Rat) : Rat :=
  match sell_avg log with
  | some m => (m - cost_basis) * sell_qty log
  | none => 0

/-- Line 99: `cost_basis_buy_pnl = (cost_basis - buy_avg) *
data[data.side == buy].amount.sum() if not isnan(buy_avg) else 0.0`. -/
def cost_basis_buy_pnl (log : List Trade) (cost_basis : Rat) : Rat :=
  match buy_avg log with
  | some m =>
      (cost_basis - m) * ((log.filter fun t => t.side == "buy").map fun t => t.amount).sum
  | none => 0

/-- Arithmetic mean of a list of rationals (only applied to nonempty
windows below). -/
def listMean (xs : List Rat) : Rat := xs.sum / xs.length

/-- Sample variance with `ddof = 1` (the pandas `std` default), i.e. the
square of the standard deviation computed at line 72. -/
def sampleVariance (xs : List Rat) : Rat :=
  (xs.map fun x => (x - listMean xs) ^ 2).sum / ((xs.length : Rat) - 1)

/-- Line 72, `price.rolling(window=w).std()`, carried on the squared scale:
entry `i` is the sample variance of the `w` prices ending at index `i`, and
`none` (NaN) while fewer than `w` observations exist (`min_periods`
defaults to the window size). -/
def rolling_vol_sq (w : Nat) (prices : List Rat) : List (Option Rat) :=
  (List.range prices.length).map fun i =>
    if i + 1 < w then none
    else some (sampleVariance ((prices.take (i + 1)).drop (i + 1 - w)))

/-- Line 73: `rolling_vol.iloc[-1] if not rolling_vol.isna().all() else
0.0`. The all-NaN column (including the empty log) collapses to an
explicit 0.0; otherwise the last entry is taken as-is. -/
def latest_vol (rv : List (Option Rat)) : Option Rat :=
  if rv.all fun o => o.isNone then some 0
  else (rv.getLast?).getD none

/-- The discrete recommendation of lines 78-83. -/
inductive Suggestion where
  | hold : Suggestion
  | wait : Suggestion
  | sell : Rat → Suggestion
deriving DecidableEq, Repr

/-- The line 78 comparison `latest_vol > 0.04` on the squared scale: for a
defined reading `v` (a variance, hence the square of the nonnegative
standard deviation), `std > 0.04` iff `v > 0.04 ^ 2`; a NaN reading
compares false in Python. -/
def vol_exceeds (lv_sq : Option Rat) (thr : Rat) : Bool :=
  match lv_sq with
  | some v => decide (thr ^ 2 < v)
  | none => false

/-- Lines 78-83 evaluated in the environment the script actually has at
that point. `sell_price_deviation` is first assigned at line 92, after
this block, so the `elif` of line 80 looks up an unbound name: `none`
models the missing binding, and reaching it raises `NameError`. -/
def suggestionStep (volHigh : Bool) (sell_dev : Option Rat) (block_size : Rat) :
    Except String Suggestion :=
  if volHigh then Except.ok Suggestion.hold
  else
    match sell_dev with
    | none => Except.error "NameError: name sell_price_deviation is not defined"
    | some d =>
        if d < 0 then Except.ok Suggestion.wait
        else Except.ok (Suggestion.sell block_size)

/-- The suggestion block as the script executes it top-to-bottom: by line
78 the volatility reading of lines 72-73 exists, but `sell_price_deviation`
(line 92) does not yet, hence the `none` argument. -/
def scriptSuggestion (log : List Trade) (block_size : Rat) : Except String Suggestion :=
  suggestionStep
    (vol_exceeds (latest_vol (rolling_vol_sq 10 (log.map fun t => t.price))) (1 / 25))
    none block_size

/-- The Suggestion Engine as the spec words it (§4.6), for comparison with
`scriptSuggestion`: rule 1 volatility, else rule 2 on `sell_deviation`
(available, the Calculator having run to completion), else rule 3. -/
def suggestion_spec (latest_volatility sell_deviation volatility_threshold block_size : Rat) :
    Suggestion :=
  if volatility_threshold < latest_volatility then Suggestion.hold
  else if sell_deviation < 0 then Suggestion.wait
  else Suggestion.sell block_size

/-- Claim C1 (code bug evidence): on a log with one SELL at 19 against
cost basis 20, the latest volatility is the 0.0 fallback (below the 0.04
threshold) and the sell deviation is `-1 < 0`, so the spec's engine
answers WAIT; the script instead raises `NameError` at line 80 because
`sell_price_deviation` is only assigned at line 92, after the suggestion
block. -/
theorem suggestion_block_name_error :
    scriptSuggestion
        [{ timestamp := 0, side := "sell", price := 19, amount := 1000, order_id := "o1" }]
        500000
      = Except.error "NameError: name sell_price_deviation is not defined" ∧
    sell_price_deviation
        [{ timestamp := 0, side := "sell", price := 19, amount := 1000, order_id := "o1" }] 20
      = -1 ∧
    suggestion_spec 0 (-1) (1 / 25) 500000 = Suggestion.wait := by
  refine ⟨?_, ?_, ?_⟩
  · norm_num [scriptSuggestion, rolling_vol_sq, latest_vol, vol_exceeds, suggestionStep,
      List.range_succ]
  · norm_num [sell_price_deviation, sell_avg, List.filter]
  · norm_num [suggestion_spec]

/-- Claim C2: whenever the latest volatility reading strictly exceeds the
0.04 threshold (stated on the squared scale: the reading is the square of
the rolling standard deviation), line 78 fires and the suggestion is HOLD
for every value or definedness of `sell_price_deviation` — rule 1
dominates rules 2 and 3, and in particular the line 80 lookup of the
not-yet-assigned name is never reached. -/
theorem hold_dominates (lv_sq : Rat) (d : Option Rat) (bs : Rat)
    (h : (1 / 25 : Rat) ^ 2 < lv_sq) :
    suggestionStep (vol_exceeds (some lv_sq) (1 / 25)) d bs = Except.ok Suggestion.hold := by
  have hv : vol_exceeds (some lv_sq) (1 / 25) = true := by
    simp only [vol_exceeds]
    exact decide_eq_true h
  rw [hv]
  simp [suggestionStep]

theorem hold_dominates_witness :
    ((1 / 25 : Rat) ^ 2 < 1) ∧
    suggestionStep (vol_exceeds (some 1) (1 / 25)) none 500000 = Except.ok Suggestion.hold :=
  ⟨by norm_num, hold_dominates 1 none 500000 (by norm_num)⟩

/-- Claim C4 (counterexample): a snapshot with `sell_total = -1` and the
positive target 1 yields `sell_progress = min(-1/1, 1) = -1`, outside
`[0, 1]` — the clamp is one-sided, so the claim's "any real snapshot"
quantification fails (and likewise for `buy_progress`). -/
theorem progress_negative_snapshot_cex :
    sell_progress (ExtRat.fin (-1)) (ExtRat.fin 1) = ExtRat.fin (-1) ∧
    buy_progress (ExtRat.fin (-1)) (ExtRat.fin 1) = ExtRat.fin (-1) ∧
    ¬ (0 ≤ (-1 : Rat) ∧ (-1 : Rat) ≤ 1) ∧ (0 < (1 : Rat)) := by
  refine ⟨?_, ?_, by norm_num, by norm_num⟩
  · norm_num [sell_progress, ediv, pymin, elt]
  · norm_num [buy_progress, ediv, pymin, elt]

/-- Claim C4 (amended): for a snapshot with nonnegative `sell_total` and
`buy_notional` — as the Aggregator produces from valid trades — and
strictly positive targets, both progress ratios are finite values lying in
`[0, 1]`. -/
theorem progress_clamped (s b t u : Rat)
    (hs : 0 ≤ s) (hb : 0 ≤ b) (ht : 0 < t) (hu : 0 < u) :
    (∃ q, sell_progress (ExtRat.fin s) (ExtRat.fin t) = ExtRat.fin q ∧ 0 ≤ q ∧ q ≤ 1) ∧
    (∃ q, buy_progress (ExtRat.fin b) (ExtRat.fin u) = ExtRat.fin q ∧ 0 ≤ q ∧ q ≤ 1) := by
  constructor
  · refine ⟨min (s / t) 1, ?_, le_min (div_nonneg hs ht.le) zero_le_one, min_le_right _ _⟩
    simp only [sell_progress, ediv, pymin, elt, if_neg ht.ne.symm]
    by_cases h : (1 : Rat) < s / t
    · simp [h, min_eq_right h.le]
    · simp [h, min_eq_left (not_lt.mp h)]
  · refine ⟨min (b / u) 1, ?_, le_min (div_nonneg hb hu.le) zero_le_one, min_le_right _ _⟩
    simp only [buy_progress, ediv, pymin, elt, if_neg hu.ne.symm]
    by_cases h : (1 : Rat) < b / u
    · simp [h, min_eq_right h.le]
    · simp [h, min_eq_left (not_lt.mp h)]

theorem progress_clamped_witness :
    (∃ q, sell_progress (ExtRat.fin 3) (ExtRat.fin 2) = ExtRat.fin q ∧ 0 ≤ q ∧ q ≤ 1) ∧
    (∃ q, buy_progress (ExtRat.fin 0) (ExtRat.fin 5) = ExtRat.fin q ∧ 0 ≤ q ∧ q ≤ 1) :=
  progress_clamped 3 0 2 5 (by norm_num) (by norm_num) (by norm_num) (by norm_num)

/-- Claim C5 (counterexample): with a zero target the code does not fail
with a configuration error — it performs the division and returns a
result: `5 / 0 = inf` is clamped to progress `1.0`, and `0 / 0` yields a
NaN progress value. -/
theorem progress_zero_target_cex :
    sell_progress (ExtRat.fin 5) (ExtRat.fin 0) = ExtRat.fin 1 ∧
    buy_progress (ExtRat.fin 0) (ExtRat.fin 0) = ExtRat.nan := by
  constructor
  · norm_num [sell_progress, ediv, pymin, elt]
  · norm_num [buy_progress, ediv, pymin, elt]

/-- Claim C5 (amended): the evaluator has no guard on the target sign: for
any positive total, a zero target produces progress exactly `1.0` (the
`inf` quotient clamped by `min`), a zero total over a zero target yields a
NaN progress, and a negative target yields the negative quotient
unclamped; in every case the division is performed and a value is
returned, never a configuration error. -/
theorem progress_no_target_guard (s : Rat) (hs : 0 < s) :
    sell_progress (ExtRat.fin s) (ExtRat.fin 0) = ExtRat.fin 1 ∧
    buy_progress (ExtRat.fin 0) (ExtRat.fin 0) = ExtRat.nan ∧
    sell_progress (ExtRat.fin s) (ExtRat.fin (-1)) = ExtRat.fin (s / (-1)) := by
  refine ⟨?_, by norm_num [buy_progress, ediv, pymin, elt], ?_⟩
  · simp [sell_progress, ediv, pymin, elt, hs]
  · have hneg : s / (-1) < 1 := by
      have hd : s / (-1) = -s := by field_simp
      rw [hd]
      linarith
    simp [sell_progress, ediv, pymin, elt, not_lt.mpr hneg.le]

theorem progress_no_target_guard_witness :
    sell_progress (ExtRat.fin 7) (ExtRat.fin 0) = ExtRat.fin 1 ∧
    buy_progress (ExtRat.fin 0) (ExtRat.fin 0) = ExtRat.nan ∧
    sell_progress (ExtRat.fin 7) (ExtRat.fin (-1)) = ExtRat.fin (7 / (-1)) :=
  progress_no_target_guard 7 (by norm_num)

/-- Claim C6: the Exposure Aggregator's `sell_mxn` (line 35) is exactly the
spec's "sum of `amount` where side = SELL" and `buy_usd` (line 36) exactly
"sum of `amount × price` where side = BUY"; both totals are nonnegative on
any log of valid trades (nonnegative amounts and prices) and both are 0 on
the empty log. -/
theorem exposure_totals (log : List Trade)
    (hval : ∀ t ∈ log, 0 ≤ t.amount ∧ 0 ≤ t.price) :
    sell_mxn log = sell_total_spec log ∧ buy_usd log = buy_notional_spec log ∧
    0 ≤ sell_mxn log ∧ 0 ≤ buy_usd log ∧
    sell_mxn [] = 0 ∧ buy_usd [] = 0 := by
  refine ⟨sell_total_spec_eq log, buy_notional_spec_eq log, ?_, ?_, rfl, rfl⟩
  · apply List.sum_nonneg
    intro x hx
    obtain ⟨t, ht, rfl⟩ := List.mem_map.mp hx
    exact (hval t (List.mem_of_mem_filter ht)).1
  · apply List.sum_nonneg
    intro x hx
    obtain ⟨t, ht, rfl⟩ := List.mem_map.mp hx
    have h2 := hval t (List.mem_of_mem_filter ht)
    exact mul_nonneg h2.1 h2.2

theorem exposure_totals_witness :
    sell_mxn
        [({ timestamp := 0, side := "sell", price := 20, amount := 3, order_id := "a" } : Trade),
         { timestamp := 1, side := "buy", price := 19, amount := 2, order_id := "b" }]
      = sell_total_spec
        [({ timestamp := 0, side := "sell", price := 20, amount := 3, order_id := "a" } : Trade),
         { timestamp := 1, side := "buy", price := 19, amount := 2, order_id := "b" }] ∧
    buy_usd
        [({ timestamp := 0, side := "sell", price := 20, amount := 3, order_id := "a" } : Trade),
         { timestamp := 1, side := "buy", price := 19, amount := 2, order_id := "b" }]
      = buy_notional_spec
        [({ timestamp := 0, side := "sell", price := 20, amount := 3, order_id := "a" } : Trade),
         { timestamp := 1, side := "buy", price := 19, amount := 2, order_id := "b" }] ∧
    0 ≤ sell_mxn
        [({ timestamp := 0, side := "sell", price := 20, amount := 3, order_id := "a" } : Trade),
         { timestamp := 1, side := "buy", price := 19, amount := 2, order_id := "b" }] ∧
    0 ≤ buy_usd
        [({ timestamp := 0, side := "sell", price := 20, amount := 3, order_id := "a" } : Trade),
         { timestamp := 1, side := "buy", price := 19, amount := 2, order_id := "b" }] ∧
    sell_mxn [] = 0 ∧ buy_usd [] = 0 :=
  exposure_totals
    [({ timestamp := 0, side := "sell", price := 20, amount := 3, order_id := "a" } : Trade),
     { timestamp := 1, side := "buy", price := 19, amount := 2, order_id := "b" }]
    (by intro t ht; fin_cases ht <;> norm_num)

/-- Claim C7: on a log with zero BUY trades, the explicit `isnan` guards of
lines 94 and 99 (modelled as the `none` branch of the undefined buy-side
mean) make `buy_price_deviation` and `cost_basis_buy_pnl` exactly 0,
whatever the cost basis. -/
theorem buy_side_empty_metrics (log : List Trade) (cb : Rat)
    (h : ∀ t ∈ log, ¬ t.side = "buy") :
    buy_price_deviation log cb = 0 ∧ cost_basis_buy_pnl log cb = 0 := by
  have hf : log.filter (fun t => t.side == "buy") = [] := by
    apply List.filter_eq_nil_iff.mpr
    intro t ht
    simpa using h t ht
  have hba : buy_avg log = none := by
    simp [buy_avg, hf]
  simp [buy_price_deviation, cost_basis_buy_pnl, hba, hf]

theorem buy_side_empty_metrics_witness :
    buy_price_deviation
        [({ timestamp := 0, side := "sell", price := 19, amount := 1000, order_id := "o1" } : Trade)]
        20 = 0 ∧
    cost_basis_buy_pnl
        [({ timestamp := 0, side := "sell", price := 19, amount := 1000, order_id := "o1" } : Trade)]
        20 = 0 :=
  buy_side_empty_metrics
    [{ timestamp := 0, side := "sell", price := 19, amount := 1000, order_id := "o1" }]
    20 (by decide)

/-- Claim C8: with fewer than 2 trades every `rolling(10)` entry is NaN
(`min_periods` equals the window), so line 73's all-NaN guard makes the
latest volatility exactly 0.0; and in general, whenever every rolling
value is undefined, `latest_vol` is exactly 0.0 rather than missing. -/
theorem latest_vol_insufficient_data (prices : List Rat) (rv : List (Option Rat)) :
    (prices.length < 2 → latest_vol (rolling_vol_sq 10 prices) = some 0) ∧
    (rv.all (fun o => o.isNone) = true → latest_vol rv = some 0) := by
  constructor
  · intro h
    have hall : (rolling_vol_sq 10 prices).all (fun o => o.isNone) = true := by
      rw [rolling_vol_sq, List.all_eq_true]
      intro o ho
      obtain ⟨i, hi, rfl⟩ := List.mem_map.mp ho
      have hlt : i < prices.length := List.mem_range.mp hi
      have h10 : i + 1 < 10 := by omega
      simp [h10]
    simp only [latest_vol]
    rw [if_pos hall]
  · intro h
    simp [latest_vol, h]

theorem latest_vol_insufficient_data_witness :
    latest_vol (rolling_vol_sq 10 [(19 : Rat)]) = some 0 ∧
    latest_vol [(none : Option Rat), none] = some 0 :=
  ⟨(latest_vol_insufficient_data [(19 : Rat)] [none, none]).1 (by norm_num),
   (latest_vol_insufficient_data [(19 : Rat)] [none, none]).2 (by rfl)⟩

/-- Claim C3 (counterexample): a row with a parsable timestamp, all cells
non-null, side `"HOLD"` (outside {BUY, SELL} in any casing) and the
negative amount `-5` survives `dropna` and is retained in the output log —
the normalizer checks only for nulls, not side validity or sign. -/
theorem normalizer_side_unchecked_cex :
    normalizeLog
        [{ timestamp := TsField.parsed 0, side := some "HOLD", price := some 20,
           amount := some (-5), order_id := some "x" }]
      = Except.ok
          [{ timestamp := 0, side := "HOLD", price := 20, amount := -5, order_id := "x" }] ∧
    ¬ ("HOLD" = "BUY" ∨ "HOLD" = "SELL" ∨ "HOLD" = "buy" ∨ "HOLD" = "sell") ∧
    ((-5 : Rat) < 0) := by
  exact ⟨rfl, by decide, by norm_num⟩

/-- Claim C3 (amended): when normalization succeeds, a trade is in the
output log exactly when some input row maps to it, and a row maps to a
trade exactly when all five cells are non-null (parsed timestamp, non-null
side, non-NaN price and amount, non-null order id) — nulls are the only
filter: side values are not validated against {BUY, SELL} and no sign or
finiteness check is applied. -/
theorem normalizer_characterization (rows : List RawRow) (out : List Trade)
    (h : normalizeLog rows = Except.ok out) :
    (∀ t : Trade, t ∈ out ↔ ∃ r ∈ rows, rowToTrade r = some t) ∧
    (∀ (r : RawRow) (t : Trade), rowToTrade r = some t →
      r = { timestamp := TsField.parsed t.timestamp, side := some t.side,
            price := some t.price, amount := some t.amount,
            order_id := some t.order_id }) := by
  constructor
  · intro t
    have hout : out = rows.filterMap rowToTrade := by
      unfold normalizeLog at h
      split at h
      · simp at h
      · injection h with h
        exact h.symm
    rw [hout]
    exact List.mem_filterMap
  · intro r t hrt
    rcases r with ⟨ts, os, op, oa, oo⟩
    unfold rowToTrade at hrt
    cases ts <;> cases os <;> cases op <;> cases oa <;> cases oo <;> simp_all
    cases t
    simp_all

theorem normalizer_characterization_witness :
    ({ timestamp := 0, side := "sell", price := 20, amount := 5, order_id := "a" } : Trade) ∈
      ([{ timestamp := 0, side := "sell", price := 20, amount := 5, order_id := "a" }] :
        List Trade) :=
  ((normalizer_characterization
      [{ timestamp := TsField.parsed 0, side := some "sell", price := some 20,
         amount := some 5, order_id := some "a" },
       { timestamp := TsField.parsed 1, side := some "x", price := none,
         amount := some 1, order_id := some "b" }]
      [{ timestamp := 0, side := "sell", price := 20, amount := 5, order_id := "a" }]
      (by rfl)).1 _).mpr
    ⟨_, List.mem_cons_self _ _, rfl⟩

/-- Claim C9: the side comparisons at lines 35-36 and 87-89 are exact
string matches against the lowercase `"sell"` and `"buy"`: prepending a
trade with any other side (such as the uppercase `"SELL"`) changes none of
the totals or averages, while the normalizer still retains such a row
(`dropna` only checks for nulls). -/
theorem foreign_side_ignored (log : List Trade) (t : Trade)
    (h1 : ¬ t.side = "sell") (h2 : ¬ t.side = "buy") :
    sell_mxn (t :: log) = sell_mxn log ∧
    buy_usd (t :: log) = buy_usd log ∧
    sell_avg (t :: log) = sell_avg log ∧
    buy_avg (t :: log) = buy_avg log ∧
    sell_qty (t :: log) = sell_qty log ∧
    rowToTrade { timestamp := TsField.parsed t.timestamp, side := some t.side,
                 price := some t.price, amount := some t.amount,
                 order_id := some t.order_id } = some t := by
  have hc1 : ((t :: log).filter fun x => x.side == "sell")
      = log.filter fun x => x.side == "sell" := by
    simp [List.filter_cons, h1]
  have hc2 : ((t :: log).filter fun x => x.side == "buy")
      = log.filter fun x => x.side == "buy" := by
    simp [List.filter_cons, h2]
  refine ⟨?_, ?_, ?_, ?_, ?_, rfl⟩ <;>
    simp [sell_mxn, buy_usd, sell_avg, buy_avg, sell_qty, hc1, hc2]

theorem foreign_side_ignored_witness :
    sell_mxn
        [({ timestamp := 0, side := "SELL", price := 20, amount := 5, order_id := "x" } : Trade),
         { timestamp := 1, side := "sell", price := 19, amount := 2, order_id := "y" }]
      = sell_mxn [{ timestamp := 1, side := "sell", price := 19, amount := 2, order_id := "y" }] ∧
    buy_usd
        [({ timestamp := 0, side := "SELL", price := 20, amount := 5, order_id := "x" } : Trade),
         { timestamp := 1, side := "sell", price := 19, amount := 2, order_id := "y" }]
      = buy_usd [{ timestamp := 1, side := "sell", price := 19, amount := 2, order_id := "y" }] ∧
    sell_avg
        [({ timestamp := 0, side := "SELL", price := 20, amount := 5, order_id := "x" } : Trade),
         { timestamp := 1, side := "sell", price := 19, amount := 2, order_id := "y" }]
      = sell_avg [{ timestamp := 1, side := "sell", price := 19, amount := 2, order_id := "y" }] ∧
    buy_avg
        [({ timestamp := 0, side := "SELL", price := 20, amount := 5, order_id := "x" } : Trade),
         { timestamp := 1, side := "sell", price := 19, amount := 2, order_id := "y" }]
      = buy_avg [{ timestamp := 1, side := "sell", price := 19, amount := 2, order_id := "y" }] ∧
    sell_qty
        [({ timestamp := 0, side := "SELL", price := 20, amount := 5, order_id := "x" } : Trade),
         { timestamp := 1, side := "sell", price := 19, amount := 2, order_id := "y" }]
      = sell_qty [{ timestamp := 1, side := "sell", price := 19, amount := 2, order_id := "y" }] ∧
    rowToTrade
        { timestamp := TsField.parsed 0, side := some "SELL", price := some 20,
          amount := some 5, order_id := some "x" }
      = some { timestamp := 0, side := "SELL", price := 20, amount := 5, order_id := "x" } :=
  foreign_side_ignored
    [{ timestamp := 1, side := "sell", price := 19, amount := 2, order_id := "y" }]
    { timestamp := 0, side := "SELL", price := 20, amount := 5, order_id := "x" }
    (by decide) (by decide)

/-- Claim C10: `dropna` (line 20) spans all five columns, `order_id`
included: a row that is valid in every other respect but has a null
`order_id` maps to no trade, and prepending it to any batch leaves the
normalizer's output unchanged. -/
theorem drop_missing_order_id (rows : List RawRow) (ts : Int) (s : String) (p a : Rat) :
    rowToTrade { timestamp := TsField.parsed ts, side := some s, price := some p,
                 amount := some a, order_id := none } = none ∧
    normalizeLog ({ timestamp := TsField.parsed ts, side := some s, price := some p,
                    amount := some a, order_id := none } :: rows) = normalizeLog rows := by
  refine ⟨rfl, ?_⟩
  unfold normalizeLog
  simp [tsRaises, List.filterMap_cons, rowToTrade]
